import Mathlib

/-!
Verification development for the `scf/__init__.py` dispatch and orchestration
layer of the pyscf repository.

Part 1 models the Method Selector (the wrap functions `RHF`, `ROHF`, `UHF`,
`DHF`): pure decision logic over the molecular invariants
(electron count, spin, symmetry flag, point-group name).

Part 2 models the `fast_newton` convergence-pipeline orchestrator: decoration
of a base solver with density fitting and Newton refinement, the optional
grid-coarsening step, the initial-guess dispatch (density matrix, explicit
orbitals, or the loosened-tolerance warm-start phase), the hand-off of the
auxiliary tensor cache, and the final monkey-patching of the caller handle's
`kernel` entry point.
-/

namespace PyscfScf

/-- Molecular-system attributes read by the Method Selector: `mol.nelectron`,
`mol.spin`, `mol.symmetry` (the symmetry-enabled flag) and `mol.groupname`
(the point-group identifier, with `C1` the trivial group). -/
structure Mole where
  nelectron : Nat
  spin : Int
  symmetry : Bool
  groupname : String
deriving Repr, DecidableEq

/-- The concrete solver classes the selector can return.  `hf_symm` and
`rhf_symm` are the same module in the source (`from pyscf.scf import hf_symm`
and `import hf_symm as rhf_symm`), so their classes share one constructor
here; likewise `hf` and `rhf`. -/
inductive Variant where
  | hf_HF1e
  | hf_symm_HF1e
  | rohf_ROHF
  | hf_RHF
  | hf_symm_ROHF
  | hf_symm_RHF
  | uhf_UHF
  | uhf_symm_UHF
  | dhf_HF1e
  | dhf_UHF
deriving Repr, DecidableEq

/-- Embedding of `scf.RHF` (src/scf/__init__.py lines 107-124).  The Python
test `mol.groupname is 'C1'` is modelled as string equality. -/
def RHF (mol : Mole) : Variant :=
  if mol.nelectron = 1 then
    if mol.symmetry then Variant.hf_symm_HF1e else Variant.hf_HF1e
  else if !mol.symmetry || mol.groupname == "C1" then
    if 0 < mol.spin then Variant.rohf_ROHF else Variant.hf_RHF
  else
    if 0 < mol.spin then Variant.hf_symm_ROHF else Variant.hf_symm_RHF

/-- Embedding of `scf.ROHF` (src/scf/__init__.py lines 126-137). -/
def ROHF (mol : Mole) : Variant :=
  if mol.nelectron = 1 then
    if mol.symmetry then Variant.hf_symm_HF1e else Variant.hf_HF1e
  else if !mol.symmetry || mol.groupname == "C1" then
    Variant.rohf_ROHF
  else
    Variant.hf_symm_ROHF

/-- Embedding of `scf.UHF` (src/scf/__init__.py lines 139-147). -/
def UHF (mol : Mole) : Variant :=
  if mol.nelectron = 1 then
    RHF mol
  else if !mol.symmetry || mol.groupname == "C1" then
    Variant.uhf_UHF
  else
    Variant.uhf_symm_UHF

/-- Embedding of `scf.DHF` (src/scf/__init__.py lines 149-155). -/
def DHF (mol : Mole) : Variant :=
  if mol.nelectron = 1 then Variant.dhf_HF1e else Variant.dhf_UHF

/-- The symmetry-adapted counterpart of each non-symmetry variant (identity on
variants that are already symmetry-adapted or have no counterpart). -/
def symCounterpart : Variant → Variant
  | Variant.hf_HF1e => Variant.hf_symm_HF1e
  | Variant.rohf_ROHF => Variant.hf_symm_ROHF
  | Variant.hf_RHF => Variant.hf_symm_RHF
  | Variant.uhf_UHF => Variant.uhf_symm_UHF
  | v => v

/-- Whether a variant is a one-electron specialization (`HF1e` class). -/
def isOneElectron : Variant → Bool
  | Variant.hf_HF1e => true
  | Variant.hf_symm_HF1e => true
  | Variant.dhf_HF1e => true
  | _ => false

/-! ## Part 2: the `fast_newton` convergence-pipeline orchestrator -/

/-- Auxiliary-basis specification (a string such as `weigend+etb` or the
even-tempered default derived by `df.addons.aug_etb_for_dfbasis`). -/
abbrev Aux := String

/-- Decoration state of a solver handle.  The source composes the two
decorators `density_fit` and `newton`; `newtonDF` is Newton refinement with
density fitting beneath it. -/
inductive Deco where
  | plain
  | newtonPlain
  | dfPlain (aux : Aux)
  | newtonDF (aux : Aux)
deriving Repr, DecidableEq

/-- A numerical-integration grid (`gen_grid.Grids`): only the attributes the
orchestrator touches (`verbose`, `level`) are modelled. -/
structure Grids where
  verbose : Nat
  level : Nat
deriving Repr, DecidableEq

/-- A solver handle (`SCF` object).  Opaque array/tensor payloads
(`mo_energy`, `mo_coeff`, `mo_occ`, `_numint`, `_cderi`) are modelled as
natural-number identifiers; `_cderi` identifiers double as object identity so
that by-reference reuse of the auxiliary tensor cache is observable.
Attributes a solver may lack (`grids`, `_numint`, `_cderi`, `_naoaux`) are
`Option`-valued, `none` meaning the attribute is absent.  `extraAttrs` holds
attributes installed by `setattr` for the pass-through `newton_kwargs`;
`kernelPatched` records whether `fast_newton` has replaced the handle's
`kernel` entry point by its warning guard. -/
structure Handle where
  deco : Deco
  conv_tol : ℚ
  conv_tol_grad : ℚ
  level_shift : ℚ
  small_rho_cutoff : ℚ
  grids : Option Grids
  numint : Option Nat
  cderi : Option Nat
  naoaux : Option Nat
  converged : Bool
  e_tot : ℚ
  mo_energy : Nat
  mo_coeff : Nat
  mo_occ : Nat
  extraAttrs : List (String × ℚ)
  kernelPatched : Bool
deriving Repr, DecidableEq

/-- Embedding of `scf.density_fit` (src lines 160-161): it dispatches to the
handle's own `density_fit` method, which returns a new handle carrying the
density-fitting decoration and all other attributes unchanged.  The method
bodies live outside src/ (`pyscf.df`, `pyscf.scf.newton_ah`).  Modelled from
the spec: density fitting is a pure decoration preserving the capability set,
and Newton refinement stays on top of density fitting when both are present
(spec 4.2: decorations compose, Newton wraps on top of density fitting). -/
def density_fit (h : Handle) (aux : Aux) : Handle :=
  match h.deco with
  | Deco.plain => { h with deco := Deco.dfPlain aux }
  | Deco.dfPlain _ => { h with deco := Deco.dfPlain aux }
  | Deco.newtonPlain => { h with deco := Deco.newtonDF aux }
  | Deco.newtonDF _ => { h with deco := Deco.newtonDF aux }

/-- Embedding of `scf.newton` (src lines 163-174): wraps a handle with the
augmented-Hessian Newton-Raphson decoration via `newton_ah.newton`.  The
class machinery lives outside src/.  Modelled from the spec: a pure
decoration preserving any density-fitting decoration beneath it. -/
def newton (h : Handle) : Handle :=
  match h.deco with
  | Deco.plain => { h with deco := Deco.newtonPlain }
  | Deco.dfPlain aux => { h with deco := Deco.newtonDF aux }
  | Deco.newtonPlain => h
  | Deco.newtonDF aux => { h with deco := Deco.newtonDF aux }

/-- Spec-side name for the density-fitting decoration (spec 4.2
`apply_density_fitting`), to be compared with the code path. -/
def apply_density_fitting (h : Handle) (aux : Aux) : Handle :=
  density_fit h aux

/-- Spec-side name for the Newton-refinement decoration (spec 4.2
`apply_newton_refinement`). -/
def apply_newton_refinement (h : Handle) : Handle :=
  newton h

/-- Result of running a (warm-start) solver's `kernel()`: the external
DIIS-SCF collaborator's output. -/
structure WarmOut where
  converged : Bool
  e_tot : ℚ
  mo_energy : Nat
  mo_coeff : Nat
  mo_occ : Nat
deriving Repr, DecidableEq

/-- Result of running the refined solver's `kernel(mo_coeff, mo_occ)`: the
external Newton-solver collaborator's output. -/
structure RefOut where
  converged : Bool
  e_tot : ℚ
  mo_energy : Nat
  mo_coeff : Nat
  mo_occ : Nat
deriving Repr, DecidableEq

/-- The external collaborators consumed by `fast_newton` through their public
interfaces: the default auxiliary-basis generator
(`df.addons.aug_etb_for_dfbasis`), the auxiliary dimension of a fitting
basis, the density-to-orbitals projector (`from_dm`), and the two solver
kernels.  The kernels may depend on the full handle configuration, so every
outcome (converged or not) is covered by quantifying over the oracle. -/
structure Oracle where
  aug_etb : Aux
  naoauxOf : Aux → Nat
  from_dm : Nat → Nat × Nat
  warmRun : Handle → WarmOut
  refinedRun : Handle → Nat → Nat → RefOut

/-- Observable events of one `fast_newton` call, used to state which phases
executed. -/
inductive Event where
  | buildApproxGrids
  | warmStartConstructed
  | warmStartKernelRun
  | cderiBuilt (id : Nat)
  | refinedKernelRun
  | warnRepeatKernel
deriving Repr, DecidableEq

/-- The auxiliary basis of a handle's density-fitting decoration, if any. -/
def auxOf : Deco → Option Aux
  | Deco.dfPlain aux => some aux
  | Deco.newtonDF aux => some aux
  | _ => none

/-- Whether a decoration state carries no Newton wrapper: a base solver in
the sense of the pipeline (an ordinary SCF object, possibly density
fitted). -/
def notNewton : Deco → Bool
  | Deco.plain => true
  | Deco.dfPlain _ => true
  | _ => false

/-- Lazy construction of the auxiliary tensor cache at the start of a solve.
Modelled from the spec: the density-fitting collaborator (outside src/)
builds `_cderi`/`_naoaux` on first use and never rebuilds a populated cache
(spec 3 invariant, spec 4.2).  `fresh` is the identity of a newly built
cache object; a build is recorded as a `cderiBuilt` event. -/
def buildCacheIfNeeded (o : Oracle) (h : Handle) (fresh : Nat) :
    Handle × Nat × List Event :=
  match auxOf h.deco, h.cderi with
  | some aux, none =>
      ({ h with cderi := some fresh, naoaux := some (o.naoauxOf aux) },
       fresh + 1, [Event.cderiBuilt fresh])
  | _, _ => (h, fresh, [])

/-- Everything one `fast_newton` call produces: the caller's handle `mf`
(mutated in place by the source), the refined solver `mf1` after its run, the
warm-start solver `mf0` when one was built (in its state after its own
kernel run), the seed actually passed to the refined kernel, the refined
kernel's raw output, the event trace, and the next fresh identity. -/
structure FNResult where
  mf : Handle
  mf1 : Handle
  mf0 : Option Handle
  seed : Nat × Nat
  refOut : RefOut
  events : List Event
  fresh : Nat
deriving Repr, DecidableEq

/-- Shared tail of `fast_newton` (src lines 229-242): run the refined
solver's kernel on the seed, then copy its terminal results onto the caller's
handle and replace that handle's `kernel` entry point. -/
def finishRun (o : Oracle) (mf mf1 : Handle) (mf0 : Option Handle)
    (seed : Nat × Nat) (ev : List Event) (fresh : Nat) : FNResult :=
  let built := buildCacheIfNeeded o mf1 fresh
  let rr := o.refinedRun built.1 seed.1 seed.2
  let mf1r := { built.1 with
    converged := rr.converged, e_tot := rr.e_tot,
    mo_energy := rr.mo_energy, mo_coeff := rr.mo_coeff,
    mo_occ := rr.mo_occ }
  let mfFinal := { mf with
    converged := mf1r.converged, e_tot := mf1r.e_tot,
    mo_energy := mf1r.mo_energy, mo_coeff := mf1r.mo_coeff,
    mo_occ := mf1r.mo_occ, kernelPatched := true }
  { mf := mfFinal, mf1 := mf1r, mf0 := mf0, seed := seed, refOut := rr,
    events := ev ++ built.2.2 ++ [Event.refinedKernelRun],
    fresh := built.2.1 }

/-- The warm-start solver in its state after its own kernel run (src line
220): the cache-build step followed by the DIIS-SCF collaborator writing its
results onto the handle. -/
def warmResult (o : Oracle) (mf0 : Handle) (fresh : Nat) : Handle :=
  let built := buildCacheIfNeeded o mf0 fresh
  let w := o.warmRun built.1
  { built.1 with
    converged := w.converged, e_tot := w.e_tot,
    mo_energy := w.mo_energy, mo_coeff := w.mo_coeff,
    mo_occ := w.mo_occ }

/-- Warm-start phase tail (src lines 220-227): run the loosened solver's
kernel, hand its auxiliary tensor cache (`_cderi`, `_naoaux`) to the refined
solver by reference, and seed the refined solver with the warm orbitals. -/
def warmFinish (o : Oracle) (mf mf1 mf0 : Handle) (ev : List Event)
    (fresh : Nat) : FNResult :=
  let built := buildCacheIfNeeded o mf0 fresh
  let w := o.warmRun built.1
  let mf0r := { built.1 with
    converged := w.converged, e_tot := w.e_tot,
    mo_energy := w.mo_energy, mo_coeff := w.mo_coeff,
    mo_occ := w.mo_occ }
  let mf1b := { mf1 with cderi := mf0r.cderi, naoaux := mf0r.naoaux }
  finishRun o mf mf1b (some mf0r) (mf0r.mo_coeff, mf0r.mo_occ)
    (ev ++ [Event.warmStartConstructed] ++ built.2.2 ++
      [Event.warmStartKernelRun]) built.2.1

/-- The state transfer of src lines 222-223: the refined solver receives the
warm solver's auxiliary tensor cache handle and its dimension
(`mf1._cderi = mf0._cderi; mf1._naoaux = mf0._naoaux`). -/
def handOff (mf1 m0 : Handle) : Handle :=
  { mf1 with cderi := m0.cderi, naoaux := m0.naoaux }

/-- The coarsened approximation grid built on src lines 192-194
(`gen_grid.Grids(mf.mol)` with `verbose = 0` and accuracy `level = 0`). -/
def coarseGrids : Grids := ⟨0, 0⟩

/-- Embedding of `scf.fast_newton` (src lines 176-242).  `mo_coeff`,
`mo_occ`, `dm0` and `auxbasis` are the optional caller arguments;
`newton_kwargs` are the pass-through Newton attributes installed on the
refined solver by `setattr`; `fresh` seeds object identities.  A Python
`NameError` (use of a name bound only inside an unexecuted branch) is
modelled as `Except.error`. -/
def fast_newton (o : Oracle) (mf : Handle)
    (mo_coeff mo_occ dm0 : Option Nat) (auxbasis : Option Aux)
    (newton_kwargs : List (String × ℚ)) (fresh : Nat) :
    Except String FNResult :=
  let auxb := auxbasis.getD o.aug_etb
  let mf1a := density_fit (newton mf) auxb
  let mf1b := { mf1a with extraAttrs := newton_kwargs ++ mf1a.extraAttrs }
  let gridStep : Option (Grids × Option Nat) :=
    if mf.grids.isSome then some (coarseGrids, mf.numint) else none
  let mf1c :=
    match gridStep with
    | some gn => { mf1b with grids := some gn.1, numint := gn.2 }
    | none => mf1b
  let ev0 : List Event :=
    match gridStep with
    | some _ => [Event.buildApproxGrids]
    | none => []
  match dm0 with
  | some d =>
      Except.ok (finishRun o mf mf1c none (o.from_dm d) ev0 fresh)
  | none =>
    match mo_coeff, mo_occ with
    | some c, some oc =>
        Except.ok (finishRun o mf mf1c none (c, oc) ev0 fresh)
    | _, _ =>
        let mf0a := density_fit mf auxb
        let mf0b := { mf0a with
          conv_tol := (1 : ℚ)/4, conv_tol_grad := (1 : ℚ)/2 }
        let mf0c :=
          if mf0b.level_shift = (0 : ℚ) then { mf0b with level_shift := (3 : ℚ)/10 }
          else mf0b
        if mf.grids.isSome then
          match gridStep with
          | none => Except.error "NameError: approx_grids is not defined"
          | some gn =>
              Except.ok (warmFinish o mf mf1c
                { mf0c with
                  grids := some gn.1, numint := gn.2,
                  small_rho_cutoff := (1 : ℚ)/100000 } ev0 fresh)
        else
          Except.ok (warmFinish o mf mf1c mf0c ev0 fresh)

/-- The refined solver as configured before the initial-guess dispatch
(src lines 186-198): Newton over density fitting, the pass-through
attributes, and the coarsened grid pair when the base solver has grids.
This names a subterm of `fast_newton` for the statements below. -/
def mkRefined (o : Oracle) (mf : Handle) (auxbasis : Option Aux)
    (kw : List (String × ℚ)) : Handle :=
  let auxb := auxbasis.getD o.aug_etb
  let a := density_fit (newton mf) auxb
  let b := { a with extraAttrs := kw ++ a.extraAttrs }
  if mf.grids.isSome then
    { b with grids := some coarseGrids, numint := mf.numint }
  else b

/-- The warm-start solver as configured before its kernel run (src lines
206-219): density-fitted, loosened tolerances, injected level shift, and the
shared coarsened grid pair when the base solver has grids.  This names a
subterm of `fast_newton` for the statements below. -/
def mkWarm (o : Oracle) (mf : Handle) (auxbasis : Option Aux) : Handle :=
  let auxb := auxbasis.getD o.aug_etb
  let a := density_fit mf auxb
  let b := { a with conv_tol := (1 : ℚ)/4, conv_tol_grad := (1 : ℚ)/2 }
  let c :=
    if b.level_shift = (0 : ℚ) then { b with level_shift := (3 : ℚ)/10 } else b
  if mf.grids.isSome then
    { c with
      grids := some coarseGrids, numint := mf.numint,
      small_rho_cutoff := (1 : ℚ)/100000 }
  else c

/-- The events recorded by the grid-coarsening step. -/
def gridEv (mf : Handle) : List Event :=
  if mf.grids.isSome then [Event.buildApproxGrids] else []

/-- Embedding of the replacement `mf_kernel` installed on the finalized
handle (src lines 236-241): it ignores all arguments, emits a diagnostic
warning, returns the cached total energy, and leaves the handle unchanged. -/
def kernelAfterFinalize (h : Handle) (_args : List Nat) :
    ℚ × Handle × List Event :=
  (h.e_tot, h, [Event.warnRepeatKernel])

/-- Production default of the energy convergence tolerance, documented in the
module docstring (src line 24: `conv_tol ... Default is 1e-10`). -/
def default_conv_tol : ℚ := 1/10000000000

/-- Modelled from the spec: the production default of the gradient
convergence tolerance is an external-collaborator concern not visible under
src/; the spec only requires it to be tighter than the warm-start value.  The
customary value, the square root of the energy tolerance, is used. -/
def default_conv_tol_grad : ℚ := 1/100000

/-- Whether an event trace records construction or execution of a warm-start
solver. -/
def hasWarmEvent (es : List Event) : Bool :=
  es.any fun e =>
    e == Event.warmStartConstructed || e == Event.warmStartKernelRun

/-- Whether an event trace records construction of the coarsened grid. -/
def hasGridEvent (es : List Event) : Bool :=
  es.any fun e => e == Event.buildApproxGrids

/-- Number of auxiliary-tensor-cache constructions recorded in a trace. -/
def cderiBuildCount (es : List Event) : Nat :=
  (es.filter fun e =>
    match e with
    | Event.cderiBuilt _ => true
    | _ => false).length

/-- A concrete oracle used to instantiate universally quantified claims. -/
def oracleW : Oracle where
  aug_etb := "etb-demo"
  naoauxOf := fun _ => 7
  from_dm := fun d => (d + 1, d + 2)
  warmRun := fun _ => ⟨false, -1, 11, 12, 13⟩
  refinedRun := fun _ c oc => ⟨true, -2, 21, c, oc⟩

/-- A concrete plain base solver handle used to instantiate universally
quantified claims. -/
def handleW : Handle where
  deco := Deco.plain
  conv_tol := 1/10000000000
  conv_tol_grad := 1/100000
  level_shift := 0
  small_rho_cutoff := 1/10000
  grids := none
  numint := none
  cderi := none
  naoaux := none
  converged := false
  e_tot := 0
  mo_energy := 1
  mo_coeff := 2
  mo_occ := 3
  extraAttrs := []
  kernelPatched := false

/-! ## Helper lemmas -/

@[simp] theorem density_fit_conv_tol (h : Handle) (aux : Aux) :
    (density_fit h aux).conv_tol = h.conv_tol := by
  cases hd : h.deco <;> simp [density_fit, hd]

@[simp] theorem density_fit_conv_tol_grad (h : Handle) (aux : Aux) :
    (density_fit h aux).conv_tol_grad = h.conv_tol_grad := by
  cases hd : h.deco <;> simp [density_fit, hd]

@[simp] theorem density_fit_level_shift (h : Handle) (aux : Aux) :
    (density_fit h aux).level_shift = h.level_shift := by
  cases hd : h.deco <;> simp [density_fit, hd]

@[simp] theorem density_fit_grids (h : Handle) (aux : Aux) :
    (density_fit h aux).grids = h.grids := by
  cases hd : h.deco <;> simp [density_fit, hd]

@[simp] theorem density_fit_numint (h : Handle) (aux : Aux) :
    (density_fit h aux).numint = h.numint := by
  cases hd : h.deco <;> simp [density_fit, hd]

@[simp] theorem density_fit_cderi (h : Handle) (aux : Aux) :
    (density_fit h aux).cderi = h.cderi := by
  cases hd : h.deco <;> simp [density_fit, hd]

@[simp] theorem density_fit_naoaux (h : Handle) (aux : Aux) :
    (density_fit h aux).naoaux = h.naoaux := by
  cases hd : h.deco <;> simp [density_fit, hd]

@[simp] theorem density_fit_small_rho_cutoff (h : Handle) (aux : Aux) :
    (density_fit h aux).small_rho_cutoff = h.small_rho_cutoff := by
  cases hd : h.deco <;> simp [density_fit, hd]

@[simp] theorem newton_grids (h : Handle) :
    (newton h).grids = h.grids := by
  cases hd : h.deco <;> simp [newton, hd]

@[simp] theorem newton_numint (h : Handle) :
    (newton h).numint = h.numint := by
  cases hd : h.deco <;> simp [newton, hd]

@[simp] theorem newton_cderi (h : Handle) :
    (newton h).cderi = h.cderi := by
  cases hd : h.deco <;> simp [newton, hd]

@[simp] theorem newton_naoaux (h : Handle) :
    (newton h).naoaux = h.naoaux := by
  cases hd : h.deco <;> simp [newton, hd]

@[simp] theorem buildCacheIfNeeded_fst_deco (o : Oracle) (h : Handle)
    (fresh : Nat) : (buildCacheIfNeeded o h fresh).1.deco = h.deco := by
  cases ha : auxOf h.deco <;> cases hc : h.cderi <;>
    simp [buildCacheIfNeeded, ha, hc]

@[simp] theorem buildCacheIfNeeded_fst_conv_tol (o : Oracle) (h : Handle)
    (fresh : Nat) : (buildCacheIfNeeded o h fresh).1.conv_tol = h.conv_tol := by
  cases ha : auxOf h.deco <;> cases hc : h.cderi <;>
    simp [buildCacheIfNeeded, ha, hc]

@[simp] theorem buildCacheIfNeeded_fst_conv_tol_grad (o : Oracle) (h : Handle)
    (fresh : Nat) :
    (buildCacheIfNeeded o h fresh).1.conv_tol_grad = h.conv_tol_grad := by
  cases ha : auxOf h.deco <;> cases hc : h.cderi <;>
    simp [buildCacheIfNeeded, ha, hc]

@[simp] theorem buildCacheIfNeeded_fst_level_shift (o : Oracle) (h : Handle)
    (fresh : Nat) :
    (buildCacheIfNeeded o h fresh).1.level_shift = h.level_shift := by
  cases ha : auxOf h.deco <;> cases hc : h.cderi <;>
    simp [buildCacheIfNeeded, ha, hc]

@[simp] theorem buildCacheIfNeeded_fst_grids (o : Oracle) (h : Handle)
    (fresh : Nat) : (buildCacheIfNeeded o h fresh).1.grids = h.grids := by
  cases ha : auxOf h.deco <;> cases hc : h.cderi <;>
    simp [buildCacheIfNeeded, ha, hc]

@[simp] theorem buildCacheIfNeeded_fst_numint (o : Oracle) (h : Handle)
    (fresh : Nat) : (buildCacheIfNeeded o h fresh).1.numint = h.numint := by
  cases ha : auxOf h.deco <;> cases hc : h.cderi <;>
    simp [buildCacheIfNeeded, ha, hc]

theorem buildCacheIfNeeded_of_some (o : Oracle) (h : Handle) (fresh i : Nat)
    (hc : h.cderi = some i) :
    buildCacheIfNeeded o h fresh = (h, fresh, []) := by
  cases ha : auxOf h.deco <;> simp [buildCacheIfNeeded, ha, hc]

theorem buildCacheIfNeeded_of_none (o : Oracle) (h : Handle) (fresh : Nat)
    (aux : Aux) (ha : auxOf h.deco = some aux) (hc : h.cderi = none) :
    buildCacheIfNeeded o h fresh =
      ({ h with cderi := some fresh, naoaux := some (o.naoauxOf aux) },
       fresh + 1, [Event.cderiBuilt fresh]) := by
  simp [buildCacheIfNeeded, ha, hc]

theorem buildCacheIfNeeded_fst_cderi_isSome (o : Oracle) (h : Handle)
    (fresh : Nat) (aux : Aux) (ha : auxOf h.deco = some aux) :
    (buildCacheIfNeeded o h fresh).1.cderi.isSome = true := by
  cases hc : h.cderi <;> simp [buildCacheIfNeeded, ha, hc]

@[simp] theorem buildCacheIfNeeded_hasWarmEvent (o : Oracle) (h : Handle)
    (fresh : Nat) :
    hasWarmEvent (buildCacheIfNeeded o h fresh).2.2 = false := by
  cases ha : auxOf h.deco <;> cases hc : h.cderi <;>
    simp [buildCacheIfNeeded, hasWarmEvent, ha, hc]

@[simp] theorem buildCacheIfNeeded_hasGridEvent (o : Oracle) (h : Handle)
    (fresh : Nat) :
    hasGridEvent (buildCacheIfNeeded o h fresh).2.2 = false := by
  cases ha : auxOf h.deco <;> cases hc : h.cderi <;>
    simp [buildCacheIfNeeded, hasGridEvent, ha, hc]

@[simp] theorem finishRun_mf0 (o : Oracle) (mf mf1 : Handle)
    (mf0 : Option Handle) (seed : Nat × Nat) (ev : List Event) (fresh : Nat) :
    (finishRun o mf mf1 mf0 seed ev fresh).mf0 = mf0 := by
  simp [finishRun]

@[simp] theorem finishRun_seed (o : Oracle) (mf mf1 : Handle)
    (mf0 : Option Handle) (seed : Nat × Nat) (ev : List Event) (fresh : Nat) :
    (finishRun o mf mf1 mf0 seed ev fresh).seed = seed := by
  simp [finishRun]

@[simp] theorem finishRun_mf_kernelPatched (o : Oracle) (mf mf1 : Handle)
    (mf0 : Option Handle) (seed : Nat × Nat) (ev : List Event) (fresh : Nat) :
    (finishRun o mf mf1 mf0 seed ev fresh).mf.kernelPatched = true := by
  simp [finishRun]

theorem finishRun_mf_converged (o : Oracle) (mf mf1 : Handle)
    (mf0 : Option Handle) (seed : Nat × Nat) (ev : List Event) (fresh : Nat) :
    (finishRun o mf mf1 mf0 seed ev fresh).mf.converged
      = (finishRun o mf mf1 mf0 seed ev fresh).refOut.converged := by
  simp [finishRun]

theorem finishRun_mf1_converged (o : Oracle) (mf mf1 : Handle)
    (mf0 : Option Handle) (seed : Nat × Nat) (ev : List Event) (fresh : Nat) :
    (finishRun o mf mf1 mf0 seed ev fresh).mf1.converged
      = (finishRun o mf mf1 mf0 seed ev fresh).refOut.converged := by
  simp [finishRun]

@[simp] theorem finishRun_events (o : Oracle) (mf mf1 : Handle)
    (mf0 : Option Handle) (seed : Nat × Nat) (ev : List Event) (fresh : Nat) :
    (finishRun o mf mf1 mf0 seed ev fresh).events
      = ev ++ (buildCacheIfNeeded o mf1 fresh).2.2
          ++ [Event.refinedKernelRun] := by
  simp [finishRun]

@[simp] theorem finishRun_mf1_deco (o : Oracle) (mf mf1 : Handle)
    (mf0 : Option Handle) (seed : Nat × Nat) (ev : List Event) (fresh : Nat) :
    (finishRun o mf mf1 mf0 seed ev fresh).mf1.deco = mf1.deco := by
  simp [finishRun]

@[simp] theorem finishRun_mf1_grids (o : Oracle) (mf mf1 : Handle)
    (mf0 : Option Handle) (seed : Nat × Nat) (ev : List Event) (fresh : Nat) :
    (finishRun o mf mf1 mf0 seed ev fresh).mf1.grids = mf1.grids := by
  simp [finishRun]

@[simp] theorem finishRun_mf1_numint (o : Oracle) (mf mf1 : Handle)
    (mf0 : Option Handle) (seed : Nat × Nat) (ev : List Event) (fresh : Nat) :
    (finishRun o mf mf1 mf0 seed ev fresh).mf1.numint = mf1.numint := by
  simp [finishRun]

theorem finishRun_mf1_cderi (o : Oracle) (mf mf1 : Handle)
    (mf0 : Option Handle) (seed : Nat × Nat) (ev : List Event) (fresh : Nat) :
    (finishRun o mf mf1 mf0 seed ev fresh).mf1.cderi
      = (buildCacheIfNeeded o mf1 fresh).1.cderi := by
  simp [finishRun]

theorem finishRun_mf1_naoaux (o : Oracle) (mf mf1 : Handle)
    (mf0 : Option Handle) (seed : Nat × Nat) (ev : List Event) (fresh : Nat) :
    (finishRun o mf mf1 mf0 seed ev fresh).mf1.naoaux
      = (buildCacheIfNeeded o mf1 fresh).1.naoaux := by
  simp [finishRun]

theorem warmFinish_eq (o : Oracle) (mf mf1 mf0 : Handle) (ev : List Event)
    (fresh : Nat) :
    warmFinish o mf mf1 mf0 ev fresh
      = finishRun o mf (handOff mf1 (warmResult o mf0 fresh))
          (some (warmResult o mf0 fresh))
          ((warmResult o mf0 fresh).mo_coeff, (warmResult o mf0 fresh).mo_occ)
          (ev ++ [Event.warmStartConstructed]
             ++ (buildCacheIfNeeded o mf0 fresh).2.2
             ++ [Event.warmStartKernelRun])
          (buildCacheIfNeeded o mf0 fresh).2.1 := rfl

@[simp] theorem handOff_deco (a b : Handle) : (handOff a b).deco = a.deco := by
  simp [handOff]

@[simp] theorem handOff_grids (a b : Handle) :
    (handOff a b).grids = a.grids := by
  simp [handOff]

@[simp] theorem handOff_numint (a b : Handle) :
    (handOff a b).numint = a.numint := by
  simp [handOff]

@[simp] theorem handOff_cderi (a b : Handle) :
    (handOff a b).cderi = b.cderi := by
  simp [handOff]

@[simp] theorem handOff_naoaux (a b : Handle) :
    (handOff a b).naoaux = b.naoaux := by
  simp [handOff]

@[simp] theorem warmResult_deco (o : Oracle) (m : Handle) (fresh : Nat) :
    (warmResult o m fresh).deco = m.deco := by
  simp [warmResult]

@[simp] theorem warmResult_conv_tol (o : Oracle) (m : Handle) (fresh : Nat) :
    (warmResult o m fresh).conv_tol = m.conv_tol := by
  simp [warmResult]

@[simp] theorem warmResult_conv_tol_grad (o : Oracle) (m : Handle)
    (fresh : Nat) : (warmResult o m fresh).conv_tol_grad = m.conv_tol_grad := by
  simp [warmResult]

@[simp] theorem warmResult_level_shift (o : Oracle) (m : Handle)
    (fresh : Nat) : (warmResult o m fresh).level_shift = m.level_shift := by
  simp [warmResult]

@[simp] theorem warmResult_grids (o : Oracle) (m : Handle) (fresh : Nat) :
    (warmResult o m fresh).grids = m.grids := by
  simp [warmResult]

@[simp] theorem warmResult_numint (o : Oracle) (m : Handle) (fresh : Nat) :
    (warmResult o m fresh).numint = m.numint := by
  simp [warmResult]

theorem warmResult_cderi (o : Oracle) (m : Handle) (fresh : Nat) :
    (warmResult o m fresh).cderi = (buildCacheIfNeeded o m fresh).1.cderi := by
  simp [warmResult]

theorem warmResult_naoaux (o : Oracle) (m : Handle) (fresh : Nat) :
    (warmResult o m fresh).naoaux
      = (buildCacheIfNeeded o m fresh).1.naoaux := by
  simp [warmResult]

theorem mkRefined_deco (o : Oracle) (mf : Handle) (aux : Option Aux)
    (kw : List (String × ℚ)) :
    (mkRefined o mf aux kw).deco = Deco.newtonDF (aux.getD o.aug_etb) := by
  cases hd : mf.deco <;> by_cases hg : mf.grids.isSome <;>
    simp [mkRefined, density_fit, newton, hd, hg]

theorem mkRefined_grids_of_none (o : Oracle) (mf : Handle) (aux : Option Aux)
    (kw : List (String × ℚ)) (hg : mf.grids = none) :
    (mkRefined o mf aux kw).grids = none := by
  cases hd : mf.deco <;> simp [mkRefined, density_fit, newton, hd, hg]

theorem mkRefined_numint_of_none (o : Oracle) (mf : Handle) (aux : Option Aux)
    (kw : List (String × ℚ)) (hg : mf.grids = none) :
    (mkRefined o mf aux kw).numint = mf.numint := by
  cases hd : mf.deco <;> simp [mkRefined, density_fit, newton, hd, hg]

theorem mkRefined_cderi (o : Oracle) (mf : Handle) (aux : Option Aux)
    (kw : List (String × ℚ)) :
    (mkRefined o mf aux kw).cderi = mf.cderi := by
  cases hd : mf.deco <;> by_cases hg : mf.grids.isSome <;>
    simp [mkRefined, density_fit, newton, hd, hg]

theorem mkWarm_deco (o : Oracle) (mf : Handle) (aux : Option Aux)
    (hb : notNewton mf.deco = true) :
    (mkWarm o mf aux).deco = Deco.dfPlain (aux.getD o.aug_etb) := by
  cases hd : mf.deco <;> rw [hd] at hb <;>
    simp [notNewton] at hb <;> by_cases hg : mf.grids.isSome <;>
    by_cases hl : mf.level_shift = (0 : ℚ) <;>
    simp [mkWarm, density_fit, hd, hg, hl]

theorem mkWarm_conv_tol (o : Oracle) (mf : Handle) (aux : Option Aux) :
    (mkWarm o mf aux).conv_tol = (1 : ℚ)/4 := by
  cases hd : mf.deco <;> by_cases hg : mf.grids.isSome <;>
    by_cases hl : mf.level_shift = (0 : ℚ) <;>
    simp [mkWarm, density_fit, hd, hg, hl]

theorem mkWarm_conv_tol_grad (o : Oracle) (mf : Handle) (aux : Option Aux) :
    (mkWarm o mf aux).conv_tol_grad = (1 : ℚ)/2 := by
  cases hd : mf.deco <;> by_cases hg : mf.grids.isSome <;>
    by_cases hl : mf.level_shift = (0 : ℚ) <;>
    simp [mkWarm, density_fit, hd, hg, hl]

theorem mkWarm_level_shift (o : Oracle) (mf : Handle) (aux : Option Aux) :
    (mkWarm o mf aux).level_shift
      = (if mf.level_shift = (0 : ℚ) then (3 : ℚ)/10 else mf.level_shift) := by
  cases hd : mf.deco <;> by_cases hg : mf.grids.isSome <;>
    by_cases hl : mf.level_shift = (0 : ℚ) <;>
    simp [mkWarm, density_fit, hd, hg, hl]

theorem mkWarm_cderi (o : Oracle) (mf : Handle) (aux : Option Aux) :
    (mkWarm o mf aux).cderi = mf.cderi := by
  cases hd : mf.deco <;> by_cases hg : mf.grids.isSome <;>
    by_cases hl : mf.level_shift = (0 : ℚ) <;>
    simp [mkWarm, density_fit, hd, hg, hl]

theorem mkWarm_grids_of_none (o : Oracle) (mf : Handle) (aux : Option Aux)
    (hg : mf.grids = none) : (mkWarm o mf aux).grids = none := by
  cases hd : mf.deco <;> by_cases hl : mf.level_shift = (0 : ℚ) <;>
    simp [mkWarm, density_fit, hd, hg, hl]

theorem mkWarm_numint_of_none (o : Oracle) (mf : Handle) (aux : Option Aux)
    (hg : mf.grids = none) : (mkWarm o mf aux).numint = mf.numint := by
  cases hd : mf.deco <;> by_cases hl : mf.level_shift = (0 : ℚ) <;>
    simp [mkWarm, density_fit, hd, hg, hl]

@[simp] theorem hasWarmEvent_gridEv (mf : Handle) :
    hasWarmEvent (gridEv mf) = false := by
  by_cases hg : mf.grids.isSome <;> simp [gridEv, hasWarmEvent, hg]

theorem gridEv_of_none (mf : Handle) (hg : mf.grids = none) :
    gridEv mf = [] := by
  simp [gridEv, hg]

theorem fast_newton_dm0_eq (o : Oracle) (mf : Handle) (c oc : Option Nat)
    (d : Nat) (aux : Option Aux) (kw : List (String × ℚ)) (fresh : Nat) :
    fast_newton o mf c oc (some d) aux kw fresh
      = Except.ok (finishRun o mf (mkRefined o mf aux kw) none
          (o.from_dm d) (gridEv mf) fresh) := by
  cases hg : mf.grids <;> simp [fast_newton, mkRefined, gridEv, hg]

theorem fast_newton_both_eq (o : Oracle) (mf : Handle) (c oc : Nat)
    (aux : Option Aux) (kw : List (String × ℚ)) (fresh : Nat) :
    fast_newton o mf (some c) (some oc) none aux kw fresh
      = Except.ok (finishRun o mf (mkRefined o mf aux kw) none
          (c, oc) (gridEv mf) fresh) := by
  cases hg : mf.grids <;> simp [fast_newton, mkRefined, gridEv, hg]

theorem fast_newton_warm_left_eq (o : Oracle) (mf : Handle) (oc : Option Nat)
    (aux : Option Aux) (kw : List (String × ℚ)) (fresh : Nat) :
    fast_newton o mf none oc none aux kw fresh
      = Except.ok (warmFinish o mf (mkRefined o mf aux kw)
          (mkWarm o mf aux) (gridEv mf) fresh) := by
  cases oc <;> cases hg : mf.grids <;>
    simp [fast_newton, mkRefined, mkWarm, gridEv, hg]

theorem fast_newton_warm_right_eq (o : Oracle) (mf : Handle) (c : Option Nat)
    (aux : Option Aux) (kw : List (String × ℚ)) (fresh : Nat) :
    fast_newton o mf c none none aux kw fresh
      = Except.ok (warmFinish o mf (mkRefined o mf aux kw)
          (mkWarm o mf aux) (gridEv mf) fresh) := by
  cases c <;> cases hg : mf.grids <;>
    simp [fast_newton, mkRefined, mkWarm, gridEv, hg]

@[simp] theorem hasWarmEvent_append (a b : List Event) :
    hasWarmEvent (a ++ b) = (hasWarmEvent a || hasWarmEvent b) := by
  simp [hasWarmEvent, List.any_append]

@[simp] theorem hasWarmEvent_nil : hasWarmEvent [] = false := rfl

@[simp] theorem hasWarmEvent_cons (e : Event) (l : List Event) :
    hasWarmEvent (e :: l)
      = ((e == Event.warmStartConstructed || e == Event.warmStartKernelRun)
          || hasWarmEvent l) := by
  simp [hasWarmEvent]

@[simp] theorem hasGridEvent_append (a b : List Event) :
    hasGridEvent (a ++ b) = (hasGridEvent a || hasGridEvent b) := by
  simp [hasGridEvent, List.any_append]

@[simp] theorem hasGridEvent_nil : hasGridEvent [] = false := rfl

@[simp] theorem hasGridEvent_cons (e : Event) (l : List Event) :
    hasGridEvent (e :: l) = ((e == Event.buildApproxGrids) || hasGridEvent l) := by
  simp [hasGridEvent]

@[simp] theorem cderiBuildCount_append (a b : List Event) :
    cderiBuildCount (a ++ b) = cderiBuildCount a + cderiBuildCount b := by
  simp [cderiBuildCount, List.filter_append]

@[simp] theorem cderiBuildCount_nil : cderiBuildCount [] = 0 := rfl

@[simp] theorem cderiBuildCount_built (i : Nat) :
    cderiBuildCount [Event.cderiBuilt i] = 1 := rfl

@[simp] theorem cderiBuildCount_buildApproxGrids :
    cderiBuildCount [Event.buildApproxGrids] = 0 := rfl

@[simp] theorem cderiBuildCount_warmStartConstructed :
    cderiBuildCount [Event.warmStartConstructed] = 0 := rfl

@[simp] theorem cderiBuildCount_warmStartKernelRun :
    cderiBuildCount [Event.warmStartKernelRun] = 0 := rfl

@[simp] theorem cderiBuildCount_refinedKernelRun :
    cderiBuildCount [Event.refinedKernelRun] = 0 := rfl

@[simp] theorem cderiBuildCount_gridEv (mf : Handle) :
    cderiBuildCount (gridEv mf) = 0 := by
  by_cases hg : mf.grids.isSome <;> simp [gridEv, hg]

@[simp] theorem cderiBuildCount_cons_built (i : Nat) (l : List Event) :
    cderiBuildCount (Event.cderiBuilt i :: l) = cderiBuildCount l + 1 := by
  simp [cderiBuildCount, List.filter]

@[simp] theorem cderiBuildCount_cons_buildApproxGrids (l : List Event) :
    cderiBuildCount (Event.buildApproxGrids :: l) = cderiBuildCount l := by
  simp [cderiBuildCount, List.filter]

@[simp] theorem cderiBuildCount_cons_warmStartConstructed (l : List Event) :
    cderiBuildCount (Event.warmStartConstructed :: l) = cderiBuildCount l := by
  simp [cderiBuildCount, List.filter]

@[simp] theorem cderiBuildCount_cons_warmStartKernelRun (l : List Event) :
    cderiBuildCount (Event.warmStartKernelRun :: l) = cderiBuildCount l := by
  simp [cderiBuildCount, List.filter]

@[simp] theorem cderiBuildCount_cons_refinedKernelRun (l : List Event) :
    cderiBuildCount (Event.refinedKernelRun :: l) = cderiBuildCount l := by
  simp [cderiBuildCount, List.filter]

theorem mkWarm_auxOf (o : Oracle) (mf : Handle) (aux : Option Aux) :
    auxOf (mkWarm o mf aux).deco = some (aux.getD o.aug_etb) := by
  cases hd : mf.deco <;> by_cases hg : mf.grids.isSome <;>
    by_cases hl : mf.level_shift = (0 : ℚ) <;>
    simp [mkWarm, density_fit, auxOf, hd, hg, hl]

theorem finishRun_events_getLast (o : Oracle) (mf mf1 : Handle)
    (mf0 : Option Handle) (seed : Nat × Nat) (ev : List Event) (fresh : Nat) :
    (finishRun o mf mf1 mf0 seed ev fresh).events.getLast?
      = some Event.refinedKernelRun := by
  rw [finishRun_events, List.getLast?_append_cons]
  rfl

/-- Core of the warm-phase cache hand-off: the warm solver's populated cache
is passed to the refined solver unchanged, and no second cache is built. -/
theorem warm_handoff_core (o : Oracle) (mf : Handle) (aux : Option Aux)
    (kw : List (String × ℚ)) (fresh : Nat) :
    (warmFinish o mf (mkRefined o mf aux kw) (mkWarm o mf aux) (gridEv mf)
        fresh).mf0 = some (warmResult o (mkWarm o mf aux) fresh) ∧
    (warmResult o (mkWarm o mf aux) fresh).cderi.isSome = true ∧
    (warmFinish o mf (mkRefined o mf aux kw) (mkWarm o mf aux) (gridEv mf)
        fresh).mf1.cderi = (warmResult o (mkWarm o mf aux) fresh).cderi ∧
    (warmFinish o mf (mkRefined o mf aux kw) (mkWarm o mf aux) (gridEv mf)
        fresh).mf1.naoaux = (warmResult o (mkWarm o mf aux) fresh).naoaux ∧
    cderiBuildCount (warmFinish o mf (mkRefined o mf aux kw) (mkWarm o mf aux)
        (gridEv mf) fresh).events
      = (if mf.cderi.isSome then 0 else 1) := by
  have haux := mkWarm_auxOf o mf aux
  rw [warmFinish_eq]
  rcases hc : mf.cderi with _ | i
  · have hc0 : (mkWarm o mf aux).cderi = none := by rw [mkWarm_cderi, hc]
    have h0 := buildCacheIfNeeded_of_none o (mkWarm o mf aux) fresh
      (aux.getD o.aug_etb) haux hc0
    have hw : (warmResult o (mkWarm o mf aux) fresh).cderi = some fresh := by
      rw [warmResult_cderi, h0]
    have h1 := buildCacheIfNeeded_of_some o
      (handOff (mkRefined o mf aux kw) (warmResult o (mkWarm o mf aux) fresh))
      (buildCacheIfNeeded o (mkWarm o mf aux) fresh).2.1 fresh (by simp [hw])
    refine ⟨by simp, by simp [hw], ?_, ?_, ?_⟩
    · rw [finishRun_mf1_cderi, h1]
      simp
    · rw [finishRun_mf1_naoaux, h1]
      simp
    · rw [finishRun_events, h1]
      simp [h0, hc]
  · have hc0 : (mkWarm o mf aux).cderi = some i := by rw [mkWarm_cderi, hc]
    have h0 := buildCacheIfNeeded_of_some o (mkWarm o mf aux) fresh i hc0
    have hw : (warmResult o (mkWarm o mf aux) fresh).cderi = some i := by
      rw [warmResult_cderi, h0]
      exact hc0
    have h1 := buildCacheIfNeeded_of_some o
      (handOff (mkRefined o mf aux kw) (warmResult o (mkWarm o mf aux) fresh))
      (buildCacheIfNeeded o (mkWarm o mf aux) fresh).2.1 i (by simp [hw])
    refine ⟨by simp, by simp [hw], ?_, ?_, ?_⟩
    · rw [finishRun_mf1_cderi, h1]
      simp
    · rw [finishRun_mf1_naoaux, h1]
      simp
    · rw [finishRun_events, h1]
      simp [h0, hc]

/-! ## Claims -/

/-- C2 (counterexample): the claim states that for one-electron systems the
symmetry-aware form is returned if and only if symmetry is active AND the
point group is nontrivial (not `C1`).  The code only tests the symmetry flag,
so a one-electron molecule with `symmetry = true` and `groupname = "C1"`
receives the symmetry-aware class `hf_symm.HF1e`, falsifying the claim. -/
theorem selector_one_electron_symm_iff_cex :
    ¬ (∀ m : Mole, m.nelectron = 1 →
        ((RHF m = Variant.hf_symm_HF1e ∧ ROHF m = Variant.hf_symm_HF1e ∧
          UHF m = Variant.hf_symm_HF1e) ↔
         (m.symmetry = true ∧ m.groupname ≠ "C1"))) := by
  intro h
  have h2 := (h ⟨1, 0, true, "C1"⟩ rfl).mp (by decide)
  exact absurd h2.2 (by decide)

/-- C2 (amended): for every one-electron system, regardless of spin and
point-group name, each of `RHF`, `ROHF`, `UHF` returns the one-electron
specialization; the symmetry-aware form exactly when the symmetry flag is
active (even for the trivial group `C1`), the plain form otherwise; a
many-electron variant is never returned. -/
theorem selector_one_electron_amended (s : Int) (b : Bool) (g : String) :
    RHF ⟨1, s, b, g⟩ = (if b then Variant.hf_symm_HF1e else Variant.hf_HF1e) ∧
    ROHF ⟨1, s, b, g⟩ = (if b then Variant.hf_symm_HF1e else Variant.hf_HF1e) ∧
    UHF ⟨1, s, b, g⟩ = (if b then Variant.hf_symm_HF1e else Variant.hf_HF1e) ∧
    isOneElectron (RHF ⟨1, s, b, g⟩) = true ∧
    isOneElectron (ROHF ⟨1, s, b, g⟩) = true ∧
    isOneElectron (UHF ⟨1, s, b, g⟩) = true := by
  cases b <;> simp [RHF, ROHF, UHF, isOneElectron]

/-- C3: for every many-electron system whose symmetry flag is active and whose
point group is nontrivial, each selector entry point returns exactly the
symmetry-adapted counterpart of the variant it returns for the same system
with symmetry disabled, holding spin (and everything else) fixed. -/
theorem selector_symmetry_counterpart (n : Nat) (s : Int) (g : String)
    (hg : g ≠ "C1") :
    RHF ⟨n + 2, s, true, g⟩ = symCounterpart (RHF ⟨n + 2, s, false, g⟩) ∧
    ROHF ⟨n + 2, s, true, g⟩ = symCounterpart (ROHF ⟨n + 2, s, false, g⟩) ∧
    UHF ⟨n + 2, s, true, g⟩ = symCounterpart (UHF ⟨n + 2, s, false, g⟩) := by
  have hg' : (g == "C1") = false := by
    simpa using hg
  by_cases hs : 0 < s <;>
    simp [RHF, ROHF, UHF, symCounterpart, hg', hs]

/-- C3 (witness): instantiation at a triplet system in the `D2h` group. -/
theorem selector_symmetry_counterpart_witness :
    ("D2h" : String) ≠ "C1" ∧
    (RHF ⟨2, 2, true, "D2h"⟩ = symCounterpart (RHF ⟨2, 2, false, "D2h"⟩) ∧
     ROHF ⟨2, 2, true, "D2h"⟩ = symCounterpart (ROHF ⟨2, 2, false, "D2h"⟩) ∧
     UHF ⟨2, 2, true, "D2h"⟩ = symCounterpart (UHF ⟨2, 2, false, "D2h"⟩)) :=
  ⟨by decide, selector_symmetry_counterpart 0 2 "D2h" (by decide)⟩

/-- C1: the refined solver built on src line 186 (`density_fit(newton(mf),
auxbasis)`) equals `apply_newton_refinement(apply_density_fitting(mf,
auxbasis))`, i.e. the density-fitting decoration sits beneath the Newton
wrapper, and the handle that runs the refinement phase carries exactly that
decoration for every initial-guess dispatch. -/
theorem fast_newton_refined_solver_construction (o : Oracle) (mf : Handle)
    (mo_coeff mo_occ dm0 : Option Nat) (auxbasis : Option Aux)
    (kw : List (String × ℚ)) (fresh : Nat) :
    density_fit (newton mf) (auxbasis.getD o.aug_etb)
      = apply_newton_refinement
          (apply_density_fitting mf (auxbasis.getD o.aug_etb)) ∧
    ∃ r, fast_newton o mf mo_coeff mo_occ dm0 auxbasis kw fresh
          = Except.ok r ∧
        r.mf1.deco = Deco.newtonDF (auxbasis.getD o.aug_etb) := by
  constructor
  · cases hd : mf.deco <;>
      simp [density_fit, newton, apply_newton_refinement,
        apply_density_fitting, hd]
  · rcases dm0 with _ | d
    · rcases mo_coeff with _ | c
      · exact ⟨_, fast_newton_warm_left_eq o mf mo_occ auxbasis kw fresh, by
          rw [warmFinish_eq]
          simp [mkRefined_deco]⟩
      · rcases mo_occ with _ | oc
        · exact ⟨_, fast_newton_warm_right_eq o mf (some c) auxbasis kw fresh,
            by
              rw [warmFinish_eq]
              simp [mkRefined_deco]⟩
        · exact ⟨_, fast_newton_both_eq o mf c oc auxbasis kw fresh, by
            simp [mkRefined_deco]⟩
    · exact ⟨_, fast_newton_dm0_eq o mf mo_coeff mo_occ d auxbasis kw fresh,
        by simp [mkRefined_deco]⟩

/-- C4: when the caller supplies both orbital coefficients and occupations,
or a density matrix, the warm-start phase does not execute: no warm-start
solver is constructed or run, and the supplied guess seeds the refined
solver directly (the density matrix through `from_dm`). -/
theorem fast_newton_supplied_guess_skips_warm_start (o : Oracle)
    (mf : Handle) (c oc : Nat) (c' oc' : Option Nat) (d : Nat)
    (aux : Option Aux) (kw : List (String × ℚ)) (fresh : Nat) :
    (∃ r, fast_newton o mf (some c) (some oc) none aux kw fresh
        = Except.ok r ∧
      r.mf0 = none ∧ hasWarmEvent r.events = false ∧ r.seed = (c, oc)) ∧
    (∃ r, fast_newton o mf c' oc' (some d) aux kw fresh = Except.ok r ∧
      r.mf0 = none ∧ hasWarmEvent r.events = false ∧
      r.seed = o.from_dm d) := by
  constructor
  · refine ⟨_, fast_newton_both_eq o mf c oc aux kw fresh, ?_, ?_, ?_⟩ <;>
      simp
  · refine ⟨_, fast_newton_dm0_eq o mf c' oc' d aux kw fresh, ?_, ?_, ?_⟩ <;>
      simp

/-- C5: whenever the warm-start phase runs (no density matrix and at most one
of the orbital arguments supplied), the warm-start solver is density fitted
and not Newton decorated, its energy and gradient tolerances are the fixed
loose values 1/4 and 1/2 (both looser than the production defaults), and a
level shift of 3/10 is injected exactly when the base solver's level shift is
zero, a nonzero base value being kept. -/
theorem fast_newton_warm_start_configuration (o : Oracle) (mf : Handle)
    (c' oc' : Option Nat) (aux : Option Aux) (kw : List (String × ℚ))
    (fresh : Nat) (hb : notNewton mf.deco = true) :
    (∃ r m0, fast_newton o mf none oc' none aux kw fresh = Except.ok r ∧
      r.mf0 = some m0 ∧
      m0.deco = Deco.dfPlain (aux.getD o.aug_etb) ∧
      m0.conv_tol = (1 : ℚ)/4 ∧ m0.conv_tol_grad = (1 : ℚ)/2 ∧
      default_conv_tol < m0.conv_tol ∧
      default_conv_tol_grad < m0.conv_tol_grad ∧
      m0.level_shift = (if mf.level_shift = (0 : ℚ) then (3 : ℚ)/10
                        else mf.level_shift)) ∧
    (∃ r m0, fast_newton o mf c' none none aux kw fresh = Except.ok r ∧
      r.mf0 = some m0 ∧
      m0.deco = Deco.dfPlain (aux.getD o.aug_etb) ∧
      m0.conv_tol = (1 : ℚ)/4 ∧ m0.conv_tol_grad = (1 : ℚ)/2 ∧
      default_conv_tol < m0.conv_tol ∧
      default_conv_tol_grad < m0.conv_tol_grad ∧
      m0.level_shift = (if mf.level_shift = (0 : ℚ) then (3 : ℚ)/10
                        else mf.level_shift)) := by
  constructor
  · refine ⟨_, warmResult o (mkWarm o mf aux) fresh,
      fast_newton_warm_left_eq o mf oc' aux kw fresh, ?_, ?_, ?_, ?_, ?_, ?_,
      ?_⟩
    · rw [warmFinish_eq]
      simp
    · rw [warmResult_deco, mkWarm_deco o mf aux hb]
    · rw [warmResult_conv_tol, mkWarm_conv_tol]
    · rw [warmResult_conv_tol_grad, mkWarm_conv_tol_grad]
    · rw [warmResult_conv_tol, mkWarm_conv_tol]
      norm_num [default_conv_tol]
    · rw [warmResult_conv_tol_grad, mkWarm_conv_tol_grad]
      norm_num [default_conv_tol_grad]
    · rw [warmResult_level_shift, mkWarm_level_shift]
  · refine ⟨_, warmResult o (mkWarm o mf aux) fresh,
      fast_newton_warm_right_eq o mf c' aux kw fresh, ?_, ?_, ?_, ?_, ?_, ?_,
      ?_⟩
    · rw [warmFinish_eq]
      simp
    · rw [warmResult_deco, mkWarm_deco o mf aux hb]
    · rw [warmResult_conv_tol, mkWarm_conv_tol]
    · rw [warmResult_conv_tol_grad, mkWarm_conv_tol_grad]
    · rw [warmResult_conv_tol, mkWarm_conv_tol]
      norm_num [default_conv_tol]
    · rw [warmResult_conv_tol_grad, mkWarm_conv_tol_grad]
      norm_num [default_conv_tol_grad]
    · rw [warmResult_level_shift, mkWarm_level_shift]

/-- C5 (witness): instantiation at a plain zero-level-shift base solver. -/
theorem fast_newton_warm_start_configuration_witness :
    notNewton handleW.deco = true ∧
    ((∃ r m0, fast_newton oracleW handleW none none none none [] 0
        = Except.ok r ∧
      r.mf0 = some m0 ∧
      m0.deco = Deco.dfPlain ((none : Option Aux).getD oracleW.aug_etb) ∧
      m0.conv_tol = (1 : ℚ)/4 ∧ m0.conv_tol_grad = (1 : ℚ)/2 ∧
      default_conv_tol < m0.conv_tol ∧
      default_conv_tol_grad < m0.conv_tol_grad ∧
      m0.level_shift = (if handleW.level_shift = (0 : ℚ) then (3 : ℚ)/10
                        else handleW.level_shift)) ∧
    (∃ r m0, fast_newton oracleW handleW none none none none [] 0
        = Except.ok r ∧
      r.mf0 = some m0 ∧
      m0.deco = Deco.dfPlain ((none : Option Aux).getD oracleW.aug_etb) ∧
      m0.conv_tol = (1 : ℚ)/4 ∧ m0.conv_tol_grad = (1 : ℚ)/2 ∧
      default_conv_tol < m0.conv_tol ∧
      default_conv_tol_grad < m0.conv_tol_grad ∧
      m0.level_shift = (if handleW.level_shift = (0 : ℚ) then (3 : ℚ)/10
                        else handleW.level_shift))) :=
  ⟨rfl, fast_newton_warm_start_configuration oracleW handleW none none none
    [] 0 rfl⟩

/-- C6: whenever the warm-start phase runs, the auxiliary tensor cache and
its dimension populated by the warm-start solver are handed to the refined
solver by reference: the refined solver's cache handle is identical to the
phase-1 one, and no second cache construction ever happens (exactly one
build when the base had no cache, none when it already had one). -/
theorem fast_newton_cache_reference_handoff (o : Oracle) (mf : Handle)
    (c' oc' : Option Nat) (aux : Option Aux) (kw : List (String × ℚ))
    (fresh : Nat) :
    (∃ r m0, fast_newton o mf none oc' none aux kw fresh = Except.ok r ∧
      r.mf0 = some m0 ∧ m0.cderi.isSome = true ∧
      r.mf1.cderi = m0.cderi ∧ r.mf1.naoaux = m0.naoaux ∧
      cderiBuildCount r.events = (if mf.cderi.isSome then 0 else 1)) ∧
    (∃ r m0, fast_newton o mf c' none none aux kw fresh = Except.ok r ∧
      r.mf0 = some m0 ∧ m0.cderi.isSome = true ∧
      r.mf1.cderi = m0.cderi ∧ r.mf1.naoaux = m0.naoaux ∧
      cderiBuildCount r.events = (if mf.cderi.isSome then 0 else 1)) := by
  obtain ⟨h1, h2, h3, h4, h5⟩ := warm_handoff_core o mf aux kw fresh
  constructor
  · exact ⟨_, warmResult o (mkWarm o mf aux) fresh,
      fast_newton_warm_left_eq o mf oc' aux kw fresh, h1, h2, h3, h4, h5⟩
  · exact ⟨_, warmResult o (mkWarm o mf aux) fresh,
      fast_newton_warm_right_eq o mf c' aux kw fresh, h1, h2, h3, h4, h5⟩

/-- C7: the orchestrator never aborts on a non-converged warm start: for
every oracle (hence every warm-start outcome) and every input shape, the
call returns without an exception, the refinement kernel is the last phase
recorded, and the converged flag written onto the caller's handle is the
refinement kernel's converged flag. -/
theorem fast_newton_always_runs_refinement (o : Oracle) (mf : Handle)
    (c oc d : Option Nat) (aux : Option Aux) (kw : List (String × ℚ))
    (fresh : Nat) :
    ∃ r, fast_newton o mf c oc d aux kw fresh = Except.ok r ∧
      r.events.getLast? = some Event.refinedKernelRun ∧
      r.mf.converged = r.refOut.converged ∧
      r.mf1.converged = r.refOut.converged := by
  rcases d with _ | d
  · rcases c with _ | c
    · refine ⟨_, fast_newton_warm_left_eq o mf oc aux kw fresh, ?_, ?_, ?_⟩ <;>
        rw [warmFinish_eq]
      · rw [finishRun_events_getLast]
      · exact finishRun_mf_converged _ _ _ _ _ _ _
      · exact finishRun_mf1_converged _ _ _ _ _ _ _
    · rcases oc with _ | oc
      · refine ⟨_, fast_newton_warm_right_eq o mf (some c) aux kw fresh,
          ?_, ?_, ?_⟩ <;> rw [warmFinish_eq]
        · rw [finishRun_events_getLast]
        · exact finishRun_mf_converged _ _ _ _ _ _ _
        · exact finishRun_mf1_converged _ _ _ _ _ _ _
      · refine ⟨_, fast_newton_both_eq o mf c oc aux kw fresh, ?_, ?_, ?_⟩
        · rw [finishRun_events_getLast]
        · exact finishRun_mf_converged _ _ _ _ _ _ _
        · exact finishRun_mf1_converged _ _ _ _ _ _ _
  · refine ⟨_, fast_newton_dm0_eq o mf c oc d aux kw fresh, ?_, ?_, ?_⟩
    · rw [finishRun_events_getLast]
    · exact finishRun_mf_converged _ _ _ _ _ _ _
    · exact finishRun_mf1_converged _ _ _ _ _ _ _

/-- C8: the handle finalized by `fast_newton` has its kernel entry point
replaced, and invoking the replacement with any arguments returns the cached
total energy, changes nothing on the handle, and emits only the diagnostic
warning. -/
theorem fast_newton_finalized_kernel_idempotent (o : Oracle) (mf : Handle)
    (c oc d : Option Nat) (aux : Option Aux) (kw : List (String × ℚ))
    (fresh : Nat) (args : List Nat) :
    ∃ r, fast_newton o mf c oc d aux kw fresh = Except.ok r ∧
      r.mf.kernelPatched = true ∧
      kernelAfterFinalize r.mf args
        = (r.mf.e_tot, r.mf, [Event.warnRepeatKernel]) := by
  rcases d with _ | d
  · rcases c with _ | c
    · exact ⟨_, fast_newton_warm_left_eq o mf oc aux kw fresh,
        by rw [warmFinish_eq]; simp, rfl⟩
    · rcases oc with _ | oc
      · exact ⟨_, fast_newton_warm_right_eq o mf (some c) aux kw fresh,
          by rw [warmFinish_eq]; simp, rfl⟩
      · exact ⟨_, fast_newton_both_eq o mf c oc aux kw fresh, by simp, rfl⟩
  · exact ⟨_, fast_newton_dm0_eq o mf c oc d aux kw fresh, by simp, rfl⟩

/-- Core of the missing-grids claim, for any base handle without grids. -/
theorem fast_newton_no_grids_core (o : Oracle) (mf : Handle)
    (c oc d : Option Nat) (aux : Option Aux) (kw : List (String × ℚ))
    (fresh : Nat) (hbg : mf.grids = none) :
    ∃ r, fast_newton o mf c oc d aux kw fresh = Except.ok r ∧
      hasGridEvent r.events = false ∧
      r.mf1.grids = none ∧ r.mf1.numint = mf.numint ∧
      (r.mf0 = none ∨ ∃ m0, r.mf0 = some m0 ∧ m0.grids = none ∧
        m0.numint = mf.numint) := by
  rcases d with _ | d
  · rcases c with _ | c
    · refine ⟨_, fast_newton_warm_left_eq o mf oc aux kw fresh, ?_, ?_, ?_,
        ?_⟩ <;> rw [warmFinish_eq]
      · simp [gridEv_of_none mf hbg]
      · simp [mkRefined_grids_of_none o mf aux kw hbg]
      · simp [mkRefined_numint_of_none o mf aux kw hbg]
      · refine Or.inr ⟨warmResult o (mkWarm o mf aux) fresh, by simp, ?_, ?_⟩
        · simp [mkWarm_grids_of_none o mf aux hbg]
        · simp [mkWarm_numint_of_none o mf aux hbg]
    · rcases oc with _ | oc
      · refine ⟨_, fast_newton_warm_right_eq o mf (some c) aux kw fresh, ?_,
          ?_, ?_, ?_⟩ <;> rw [warmFinish_eq]
        · simp [gridEv_of_none mf hbg]
        · simp [mkRefined_grids_of_none o mf aux kw hbg]
        · simp [mkRefined_numint_of_none o mf aux kw hbg]
        · refine Or.inr ⟨warmResult o (mkWarm o mf aux) fresh, by simp, ?_,
            ?_⟩
          · simp [mkWarm_grids_of_none o mf aux hbg]
          · simp [mkWarm_numint_of_none o mf aux hbg]
      · refine ⟨_, fast_newton_both_eq o mf c oc aux kw fresh, ?_, ?_, ?_, ?_⟩
        · simp [gridEv_of_none mf hbg]
        · simp [mkRefined_grids_of_none o mf aux kw hbg]
        · simp [mkRefined_numint_of_none o mf aux kw hbg]
        · exact Or.inl (by simp)
  · refine ⟨_, fast_newton_dm0_eq o mf c oc d aux kw fresh, ?_, ?_, ?_, ?_⟩
    · simp [gridEv_of_none mf hbg]
    · simp [mkRefined_grids_of_none o mf aux kw hbg]
    · simp [mkRefined_numint_of_none o mf aux kw hbg]
    · exact Or.inl (by simp)

/-- C9: for a base solver without a `grids` attribute, `fast_newton`
completes without an error for every input shape, records no grid-coarsening
step, and attaches no approximation grid or coarsened evaluator to either
phase's solver. -/
theorem fast_newton_missing_grids_capability (o : Oracle) (mf : Handle)
    (c oc d : Option Nat) (aux : Option Aux) (kw : List (String × ℚ))
    (fresh : Nat) :
    ∃ r, fast_newton o { mf with grids := none } c oc d aux kw fresh
        = Except.ok r ∧
      hasGridEvent r.events = false ∧
      r.mf1.grids = none ∧ r.mf1.numint = mf.numint ∧
      (r.mf0 = none ∨ ∃ m0, r.mf0 = some m0 ∧ m0.grids = none ∧
        m0.numint = mf.numint) :=
  fast_newton_no_grids_core o { mf with grids := none } c oc d aux kw fresh
    rfl

/-- C10: when both a density matrix and orbital coefficients/occupations are
supplied, the density matrix takes priority: the supplied orbitals are
discarded and the refined solver is seeded with the orbitals projected from
the density matrix by `from_dm`, with no warm start. -/
theorem fast_newton_dm0_priority (o : Oracle) (mf : Handle) (c oc d : Nat)
    (aux : Option Aux) (kw : List (String × ℚ)) (fresh : Nat) :
    ∃ r, fast_newton o mf (some c) (some oc) (some d) aux kw fresh
        = Except.ok r ∧
      r.seed = o.from_dm d ∧ r.mf0 = none ∧
      hasWarmEvent r.events = false := by
  refine ⟨_, fast_newton_dm0_eq o mf (some c) (some oc) d aux kw fresh,
    ?_, ?_, ?_⟩ <;> simp

end PyscfScf
